import Mathlib

/-!
Shallow embedding of the browser/session resource manager of the
brave-scraper-mcp repository (src/src/browser/instance.py,
src/src/browser/subagent_manager.py, src/src/browser/manager.py).

Python dictionaries and OrderedDict values are modelled as association
lists in insertion order.  Asynchronous method bodies are modelled as
explicit state-passing functions; an asyncio.Lock is a boolean field of
the state, and acquiring a lock the current task already holds is
modelled as an outcome that never completes (asyncio locks are not
reentrant).  Wall-clock time and freshly allocated browser objects
(pages, contexts, browser processes) are passed in as explicit
parameters and handles.
-/

namespace BraveScraper

/-- Association list in insertion order, modelling a Python dict or
OrderedDict with string keys. -/
abbrev OD (α : Type) := List (String × α)

/-- Python d.get(k): the value bound to the first occurrence of the key. -/
def odGet {α : Type} : OD α → String → Option α
  | [], _ => none
  | (k1, v) :: rest, k => if k1 = k then some v else odGet rest k

/-- Python (k in d). -/
def odContains {α : Type} (l : OD α) (k : String) : Bool :=
  (odGet l k).isSome

/-- Python d[k] = v: replace in place if the key exists (position kept),
otherwise append at the end. -/
def odSet {α : Type} : OD α → String → α → OD α
  | [], k, v => [(k, v)]
  | (k1, v1) :: rest, k, v =>
      if k1 = k then (k, v) :: rest else (k1, v1) :: odSet rest k v

/-- Python d.pop(k, None), keeping only the dictionary: drop the first
binding of the key, if any. -/
def odRemove {α : Type} : OD α → String → OD α
  | [], _ => []
  | (k1, v1) :: rest, k =>
      if k1 = k then rest else (k1, v1) :: odRemove rest k

/-- OrderedDict move_to_end(k): move the binding of the key to the last
position.  (The source only calls it on keys that are present.) -/
def odMoveToEnd {α : Type} (l : OD α) (k : String) : OD α :=
  match odGet l k with
  | none => l
  | some v => odRemove l k ++ [(k, v)]

/-- Outcome of running one async method to completion: a returned value,
a raised exception (identified by its message), or a task that is
blocked forever because it awaited a lock it can never acquire. -/
inductive PyResult (α : Type) where
  | ok : α → PyResult α
  | exn : String → PyResult α
  | blocked : PyResult α
deriving Repr, DecidableEq

/-- TabInfo from src/src/browser/instance.py: metadata of one tab.  The
page handle is modelled as a numeric id. -/
structure TabInfo where
  pageId : Nat
  url : String
  createdAt : Nat
  lastAccessed : Nat
deriving Repr, DecidableEq

/-- State of one BrowserInstance (src/src/browser/instance.py).  The
objId field models Python object identity; closedPages and
contextClosed record which page.close() and context.close() calls have
been awaited. -/
structure BrowserInstance where
  objId : Nat
  sessionId : String
  contextId : Nat
  tabs : OD TabInfo
  lastActivity : Nat
  isActive : Bool
  closed : Bool
  lockHeld : Bool
  maxTabs : Nat
  closedPages : List Nat
  contextClosed : Bool
deriving Repr, DecidableEq

/-- BrowserInstance.__init__: fresh instance, MAX_TABS = 15. -/
def mkBrowserInstance (objId : Nat) (session_id : String) (contextId : Nat)
    (now : Nat) : BrowserInstance :=
  { objId := objId
    sessionId := session_id
    contextId := contextId
    tabs := []
    lastActivity := now
    isActive := true
    closed := false
    lockHeld := false
    maxTabs := 15
    closedPages := []
    contextClosed := false }

/-- Run a method body under (async with self lock).  If the current task
already holds the lock the acquire suspends forever.  The lock is
released when the body finishes, normally or with an exception; a body
that itself blocked never reaches the release. -/
def withInstanceLock {α : Type} (s : BrowserInstance)
    (body : BrowserInstance → BrowserInstance × PyResult α) :
    BrowserInstance × PyResult α :=
  if s.lockHeld then (s, PyResult.blocked)
  else
    match body { s with lockHeld := true } with
    | (s1, PyResult.blocked) => (s1, PyResult.blocked)
    | (s1, PyResult.ok a) => ({ s1 with lockHeld := false }, PyResult.ok a)
    | (s1, PyResult.exn e) => ({ s1 with lockHeld := false }, PyResult.exn e)

/-- BrowserInstance.update_activity. -/
def BrowserInstance.update_activity (s : BrowserInstance) (now : Nat) :
    BrowserInstance :=
  { s with lastActivity := now, isActive := true }

/-- Python truthiness of an Optional[str]: None and the empty string are
falsy. -/
def strOptTruthy : Option String → Bool
  | none => false
  | some s => !(s = "")

/-- BrowserInstance._evict_oldest_tab: pop the first entry of the
ordered dict and close its page (close errors are swallowed).  Called
with the instance lock held. -/
def BrowserInstance.evict_oldest_tab (s : BrowserInstance) : BrowserInstance :=
  match s.tabs with
  | [] => s
  | (_, info) :: rest =>
      { s with tabs := rest, closedPages := s.closedPages ++ [info.pageId] }

/-- Body of BrowserInstance.create_tab, run with the instance lock held:
check the closed flag, evict if at the limit, pick the tab id, create
the page and navigate (goto may raise), insert as most-recently-used. -/
def createTabBody (tab_id ur : Option String) (now freshPage : Nat)
    (gotoFails : Bool) (s : BrowserInstance) :
    BrowserInstance × PyResult (String × Nat) :=
  if s.closed then (s, PyResult.exn "Browser instance has been closed")
  else
    let s := if s.maxTabs ≤ s.tabs.length then s.evict_oldest_tab else s
    let tid := match tab_id with
      | some t => t
      | none => "tab_" ++ toString (now * 1000) ++ "_" ++ toString s.tabs.length
    if strOptTruthy ur && gotoFails then (s, PyResult.exn "navigation failed")
    else
      let info : TabInfo :=
        { pageId := freshPage
          url := match ur with
            | some u => if u = "" then "about:blank" else u
            | none => "about:blank"
          createdAt := now
          lastAccessed := now }
      let s := { s with tabs := odMoveToEnd (odSet s.tabs tid info) tid }
      (s.update_activity now, PyResult.ok (tid, freshPage))

/-- BrowserInstance.create_tab.  Inputs beyond the Python arguments: the
current time, the handle of the page new_page() would return, and
whether page.goto(url) raises.  Returns the post-call state and the
result (the pair of tab id and page handle, or the raised exception). -/
def BrowserInstance.create_tab (s : BrowserInstance)
    (tab_id ur : Option String) (now freshPage : Nat) (gotoFails : Bool) :
    BrowserInstance × PyResult (String × Nat) :=
  withInstanceLock s (createTabBody tab_id ur now freshPage gotoFails)

/-- Body of BrowserInstance.get_tab, run with the instance lock held. -/
def getTabBody (tab_id : String) (now : Nat) (s : BrowserInstance) :
    BrowserInstance × PyResult (Option Nat) :=
  if s.closed then (s, PyResult.ok none)
  else
    match odGet s.tabs tab_id with
    | some info =>
        let info := { info with lastAccessed := now }
        let s := { s with tabs := odMoveToEnd (odSet s.tabs tab_id info) tab_id }
        (s.update_activity now, PyResult.ok (some info.pageId))
    | none => (s, PyResult.ok none)

/-- BrowserInstance.get_tab: on a hit, touch the tab, move it to the
most-recently-used end and update activity; return the page handle. -/
def BrowserInstance.get_tab (s : BrowserInstance) (tab_id : String)
    (now : Nat) : BrowserInstance × PyResult (Option Nat) :=
  withInstanceLock s (getTabBody tab_id now)

/-- Body of BrowserInstance.close_tab, run with the instance lock held. -/
def closeTabBody (tab_id : String) (now : Nat) (s : BrowserInstance) :
    BrowserInstance × PyResult Bool :=
  if s.closed then (s, PyResult.ok false)
  else
    match odGet s.tabs tab_id with
    | some info =>
        let s := { s with tabs := odRemove s.tabs tab_id
                          closedPages := s.closedPages ++ [info.pageId] }
        (s.update_activity now, PyResult.ok true)
    | none => (s, PyResult.ok false)

/-- BrowserInstance.close_tab: pop the entry and close its page (close
errors are swallowed); returns whether an entry existed. -/
def BrowserInstance.close_tab (s : BrowserInstance) (tab_id : String)
    (now : Nat) : BrowserInstance × PyResult Bool :=
  withInstanceLock s (closeTabBody tab_id now)

/-- Body of BrowserInstance.close_all_tabs, run with the instance lock
held: close every page best-effort, clear the dict, update activity. -/
def closeAllTabsBody (now : Nat) (s : BrowserInstance) :
    BrowserInstance × PyResult Unit :=
  let s := { s with closedPages :=
                      s.closedPages ++
                        s.tabs.map (fun (p : String × TabInfo) => p.2.pageId)
                    tabs := [] }
  (s.update_activity now, PyResult.ok ())

/-- BrowserInstance.close_all_tabs.  Acquires the instance lock itself. -/
def BrowserInstance.close_all_tabs (s : BrowserInstance) (now : Nat) :
    BrowserInstance × PyResult Unit :=
  withInstanceLock s (closeAllTabsBody now)

/-- BrowserInstance.close: under the instance lock, return at once if
already closed, otherwise set the closed flags, then await
close_all_tabs() (which acquires the same lock), then close the context
(errors swallowed); the shared browser process is never closed here. -/
def BrowserInstance.close (s : BrowserInstance) (now : Nat) :
    BrowserInstance × PyResult Unit :=
  withInstanceLock s fun s =>
    if s.closed then (s, PyResult.ok ())
    else
      let s := { s with closed := true, isActive := false }
      match s.close_all_tabs now with
      | (s1, PyResult.ok _) => ({ s1 with contextClosed := true }, PyResult.ok ())
      | (s1, PyResult.exn e) => (s1, PyResult.exn e)
      | (s1, PyResult.blocked) => (s1, PyResult.blocked)

/-- BrowserInstance.tab_count. -/
def BrowserInstance.tab_count (s : BrowserInstance) : Nat :=
  s.tabs.length

/-- State of the SubAgentBrowserManager
(src/src/browser/subagent_manager.py).  Browser process handles are
numeric ids drawn from the nextId allocator; closedBrowsers records the
handles on which browser.close() has been awaited. -/
structure SubAgentBrowserManager where
  browsers : OD BrowserInstance
  browserRefs : OD Nat
  running : Bool
  idleTimeoutSeconds : Nat
  lockHeld : Bool
  nextId : Nat
  closedBrowsers : List Nat
deriving Repr, DecidableEq

/-- SubAgentBrowserManager.__init__ (before start() runs). -/
def mkSubAgentBrowserManager (idle_timeout_minutes : Nat) :
    SubAgentBrowserManager :=
  { browsers := []
    browserRefs := []
    running := false
    idleTimeoutSeconds := idle_timeout_minutes * 60
    lockHeld := false
    nextId := 0
    closedBrowsers := [] }

/-- Run a manager method body under (async with self lock), with the
same non-reentrancy semantics as withInstanceLock. -/
def withManagerLock {α : Type} (m : SubAgentBrowserManager)
    (body : SubAgentBrowserManager → SubAgentBrowserManager × PyResult α) :
    SubAgentBrowserManager × PyResult α :=
  if m.lockHeld then (m, PyResult.blocked)
  else
    match body { m with lockHeld := true } with
    | (m1, PyResult.blocked) => (m1, PyResult.blocked)
    | (m1, PyResult.ok a) => ({ m1 with lockHeld := false }, PyResult.ok a)
    | (m1, PyResult.exn e) => ({ m1 with lockHeld := false }, PyResult.exn e)

/-- SubAgentBrowserManager.create_browser.  Extra inputs: the generated
session id used when none is supplied, the current time, and whether the
browser launch (both the preferred channel and the plain fallback) and
the context creation fail.  Raises when the manager is not running;
reuses and touches an existing entry; otherwise launches a browser
process, records its handle in browserRefs, creates the isolated
context, wraps and registers the instance.  The body runs with the
manager lock held. -/
def createBrowserBody (session_id : Option String) (freshSessionId : String)
    (now : Nat) (launchFails ctxFails : Bool) (m : SubAgentBrowserManager) :
    SubAgentBrowserManager × PyResult BrowserInstance :=
  if !m.running then (m, PyResult.exn "SubAgentBrowserManager not started")
  else
    let sid := match session_id with
      | some s => s
      | none => freshSessionId
    match odGet m.browsers sid with
    | some inst =>
        let inst := inst.update_activity now
        ({ m with browsers := odSet m.browsers sid inst }, PyResult.ok inst)
    | none =>
        if launchFails then (m, PyResult.exn "browser launch failed")
        else
          let browserHandle := m.nextId
          let m := { m with browserRefs := odSet m.browserRefs sid browserHandle
                            nextId := m.nextId + 1 }
          if ctxFails then (m, PyResult.exn "context creation failed")
          else
            let contextHandle := m.nextId
            let inst := mkBrowserInstance (m.nextId + 1) sid contextHandle now
            let m := { m with nextId := m.nextId + 2
                              browsers := odSet m.browsers sid inst }
            (m, PyResult.ok inst)

def SubAgentBrowserManager.create_browser (m : SubAgentBrowserManager)
    (session_id : Option String) (freshSessionId : String) (now : Nat)
    (launchFails ctxFails : Bool) :
    SubAgentBrowserManager × PyResult BrowserInstance :=
  withManagerLock m
    (createBrowserBody session_id freshSessionId now launchFails ctxFails)

/-- Body of SubAgentBrowserManager.get_browser, run with the manager
lock held: returns the instance only if it exists and is not closed
(touching activity); no running-flag check. -/
def getBrowserBody (session_id : String) (now : Nat)
    (m : SubAgentBrowserManager) :
    SubAgentBrowserManager × PyResult (Option BrowserInstance) :=
  match odGet m.browsers session_id with
  | some inst =>
      if !inst.closed then
        let inst := inst.update_activity now
        ({ m with browsers := odSet m.browsers session_id inst },
         PyResult.ok (some inst))
      else (m, PyResult.ok none)
  | none => (m, PyResult.ok none)

/-- SubAgentBrowserManager.get_browser. -/
def SubAgentBrowserManager.get_browser (m : SubAgentBrowserManager)
    (session_id : String) (now : Nat) :
    SubAgentBrowserManager × PyResult (Option BrowserInstance) :=
  withManagerLock m (getBrowserBody session_id now)

/-- Body of SubAgentBrowserManager.close_browser, run with the manager
lock held: pop the entry, await instance.close() (exceptions swallowed),
then pop and close the browser handle; returns whether the entry
existed.  No running-flag check. -/
def closeBrowserBody (session_id : String) (now : Nat)
    (m : SubAgentBrowserManager) : SubAgentBrowserManager × PyResult Bool :=
  match odGet m.browsers session_id with
  | some inst =>
      let m := { m with browsers := odRemove m.browsers session_id }
      match inst.close now with
      | (_, PyResult.blocked) => (m, PyResult.blocked)
      | _ =>
          match odGet m.browserRefs session_id with
          | some h =>
              ({ m with browserRefs := odRemove m.browserRefs session_id
                        closedBrowsers := m.closedBrowsers ++ [h] },
               PyResult.ok true)
          | none => (m, PyResult.ok true)
  | none => (m, PyResult.ok false)

/-- SubAgentBrowserManager.close_browser. -/
def SubAgentBrowserManager.close_browser (m : SubAgentBrowserManager)
    (session_id : String) (now : Nat) :
    SubAgentBrowserManager × PyResult Bool :=
  withManagerLock m (closeBrowserBody session_id now)

/-- Loop body of SubAgentBrowserManager._cleanup_inactive over the
marked session ids: pop the instance, await instance.close() (exceptions
swallowed), then pop and close the browser handle.  A close that blocks
stops the whole sweep. -/
def cleanupLoop (now : Nat) :
    SubAgentBrowserManager → List String → SubAgentBrowserManager × PyResult Unit
  | m, [] => (m, PyResult.ok ())
  | m, sid :: rest =>
      let step : SubAgentBrowserManager × PyResult Unit :=
        match odGet m.browsers sid with
        | some inst =>
            let m := { m with browsers := odRemove m.browsers sid }
            match inst.close now with
            | (_, PyResult.blocked) => (m, PyResult.blocked)
            | _ =>
                match odGet m.browserRefs sid with
                | some h =>
                    ({ m with browserRefs := odRemove m.browserRefs sid
                              closedBrowsers := m.closedBrowsers ++ [h] },
                     PyResult.ok ())
                | none => (m, PyResult.ok ())
        | none =>
            match odGet m.browserRefs sid with
            | some h =>
                ({ m with browserRefs := odRemove m.browserRefs sid
                          closedBrowsers := m.closedBrowsers ++ [h] },
                 PyResult.ok ())
            | none => (m, PyResult.ok ())
      match step with
      | (m1, PyResult.ok _) => cleanupLoop now m1 rest
      | (m1, r) => (m1, r)

/-- SubAgentBrowserManager._cleanup_inactive: under the manager lock,
mark every session whose idle time strictly exceeds
IDLE_TIMEOUT_SECONDS, then close and deregister each marked session. -/
def SubAgentBrowserManager.cleanup_inactive (m : SubAgentBrowserManager)
    (now : Nat) : SubAgentBrowserManager × PyResult Unit :=
  withManagerLock m fun m =>
    let toClose :=
      (m.browsers.filter
        (fun (p : String × BrowserInstance) =>
          decide (m.idleTimeoutSeconds < now - p.2.lastActivity))).map Prod.fst
    cleanupLoop now m toClose

/-- SubAgentBrowserManager.get_or_create_browser: get_browser, then
create_browser on a miss. -/
def SubAgentBrowserManager.get_or_create_browser (m : SubAgentBrowserManager)
    (session_id : String) (now : Nat) (launchFails ctxFails : Bool) :
    SubAgentBrowserManager × PyResult BrowserInstance :=
  match m.get_browser session_id now with
  | (m1, PyResult.ok (some inst)) => (m1, PyResult.ok inst)
  | (m1, PyResult.ok none) =>
      m1.create_browser (some session_id) "" now launchFails ctxFails
  | (m1, PyResult.exn e) => (m1, PyResult.exn e)
  | (m1, PyResult.blocked) => (m1, PyResult.blocked)

/-- State of the BrowserManager gateway (src/src/browser/manager.py)
restricted to what isolated_context touches: whether the shared browser
process is up, the registry of active one-shot contexts, the single
mutex, a handle allocator and the log of closed contexts. -/
structure BrowserManager where
  browserStarted : Bool
  activeContexts : OD Nat
  lockHeld : Bool
  nextId : Nat
  closedContexts : List Nat
deriving Repr, DecidableEq

/-- BrowserManager.isolated_context: under the single mutex held for the
entire scope, create a context and page, register the context under the
generated id, run the caller body on the page, and on scope exit
(normal return or exception from the body) close the context (close
errors swallowed) and deregister it, then release the mutex.  The body
is the caller code run at the yield; it receives the gateway state and
the context handle.  A body that blocks never resumes the generator, so
no cleanup runs for it. -/
def BrowserManager.isolated_context {α : Type} (g : BrowserManager)
    (context_id : String)
    (body : BrowserManager → Nat → BrowserManager × PyResult α) :
    BrowserManager × PyResult α :=
  if g.lockHeld then (g, PyResult.blocked)
  else
    let g := { g with lockHeld := true }
    if !g.browserStarted then
      ({ g with lockHeld := false }, PyResult.exn "Browser not initialized")
    else
      let ctx := g.nextId
      let g := { g with nextId := g.nextId + 2
                        activeContexts := odSet g.activeContexts context_id ctx }
      match body g ctx with
      | (g1, PyResult.blocked) => (g1, PyResult.blocked)
      | (g1, r) =>
          ({ g1 with closedContexts := g1.closedContexts ++ [ctx]
                     activeContexts := odRemove g1.activeContexts context_id
                     lockHeld := false }, r)

/-- One call to create_tab: the Python arguments plus the environment
inputs (current time, fresh page handle, navigation outcome). -/
structure CreateCall where
  tab_id : Option String
  ur : Option String
  now : Nat
  freshPage : Nat
  gotoFails : Bool
deriving Repr, DecidableEq

/-- Post-state of one create_tab call (the Python object is mutated in
place, so the state is kept whether the call returned or raised). -/
def createTabState (s : BrowserInstance) (c : CreateCall) : BrowserInstance :=
  (s.create_tab c.tab_id c.ur c.now c.freshPage c.gotoFails).1

/-- Run a sequence of create_tab calls on one instance. -/
def runCreateTabs : BrowserInstance → List CreateCall → BrowserInstance
  | s, [] => s
  | s, c :: rest => runCreateTabs (createTabState s c) rest

/-- A fresh instance as built by BrowserInstance.__init__. -/
def inst0 : BrowserInstance := mkBrowserInstance 0 "session" 0 0

/-- Concrete call sequence: sixteen navigations with distinct ids. -/
def callsC1 : List CreateCall :=
  (List.range 16).map (fun i =>
    { tab_id := some ("t" ++ toString i)
      ur := some "https://example.com"
      now := i
      freshPage := 100 + i
      gotoFails := false })

/-- A fresh instance with the tab cap lowered to 2, as the lru test in
src/tests/test_browser_lifecycle.py does by assigning MAX_TABS. -/
def inst2cap : BrowserInstance := { inst0 with maxTabs := 2 }

/-- The capacity-2 scenario of the spec: create A, create B, get A,
create C. -/
def c2state : BrowserInstance :=
  let s1 := createTabState inst2cap
    { tab_id := some "A", ur := none, now := 1, freshPage := 101, gotoFails := false }
  let s2 := createTabState s1
    { tab_id := some "B", ur := none, now := 2, freshPage := 102, gotoFails := false }
  let s3 := (s2.get_tab "A" 3).1
  createTabState s3
    { tab_id := some "C", ur := none, now := 4, freshPage := 103, gotoFails := false }

/-- Metadata of a concrete open tab. -/
def tabT1 : TabInfo :=
  { pageId := 41, url := "https://example.com", createdAt := 1, lastAccessed := 1 }

/-- An open instance holding one tab. -/
def instOneTab : BrowserInstance := { inst0 with tabs := [("t1", tabT1)] }

/-- An instance whose closed flag is set while a tab entry is still
registered (the state the deadlocked close leaves behind, with the lock
field reset so further calls can be examined). -/
def instClosedOneTab : BrowserInstance :=
  { inst0 with tabs := [("t1", tabT1)], closed := true, isActive := false }

/-- A manager that was never started. -/
def mNotStarted : SubAgentBrowserManager := mkSubAgentBrowserManager 30

/-- A started manager with no sessions. -/
def mRunning : SubAgentBrowserManager := { mNotStarted with running := true }

/-- A closed instance registered under session id X. -/
def instClosedX : BrowserInstance :=
  { mkBrowserInstance 7 "X" 3 0 with closed := true, isActive := false }

/-- A running manager whose map holds the closed instance for X. -/
def mWithClosedX : SubAgentBrowserManager :=
  { mRunning with browsers := [("X", instClosedX)]
                  browserRefs := [("X", 2)]
                  nextId := 8 }

/-- A running manager with two sessions A and B, both idle since time 0,
with a 300 second idle timeout. -/
def mExpired : SubAgentBrowserManager :=
  { mRunning with
      browsers := [("A", mkBrowserInstance 1 "A" 10 0),
                   ("B", mkBrowserInstance 2 "B" 11 0)]
      browserRefs := [("A", 20), ("B", 21)]
      idleTimeoutSeconds := 300
      nextId := 30 }

/-- A gateway with the shared browser process started and no active
contexts. -/
def gw0 : BrowserManager :=
  { browserStarted := true
    activeContexts := []
    lockHeld := false
    nextId := 0
    closedContexts := [] }

/-- A caller body that returns normally without touching the gateway. -/
def bodyRet : BrowserManager → Nat → BrowserManager × PyResult Nat :=
  fun g _ => (g, PyResult.ok 0)

/-- A caller body that raises. -/
def bodyRaise : BrowserManager → Nat → BrowserManager × PyResult Nat :=
  fun g _ => (g, PyResult.exn "navigation crashed")

/-- A further concrete create_tab call used to exercise the step facts. -/
def callX : CreateCall :=
  { tab_id := some "tX", ur := none, now := 9, freshPage := 200
    gotoFails := false }

/-- Concrete tab metadata for a capacity-2 instance. -/
def tabA : TabInfo :=
  { pageId := 101, url := "about:blank", createdAt := 1, lastAccessed := 1 }

/-- Concrete tab metadata for a capacity-2 instance. -/
def tabB : TabInfo :=
  { pageId := 102, url := "about:blank", createdAt := 2, lastAccessed := 2 }

/-- A capacity-2 instance already holding tabs A and B, in that recency
order. -/
def instAB : BrowserInstance :=
  { inst2cap with tabs := [("A", tabA), ("B", tabB)] }

/-- The create_tab call for tab C in the capacity-2 scenario. -/
def callC : CreateCall :=
  { tab_id := some "C", ur := none, now := 4, freshPage := 103
    gotoFails := false }

/-! Basic facts about the ordered-dictionary operations. -/

theorem odGet_odSet_self {α : Type} (l : OD α) (k : String) (v : α) :
    odGet (odSet l k v) k = some v := by
  induction l with
  | nil => simp [odSet, odGet]
  | cons p rest ih =>
      obtain ⟨k1, v1⟩ := p
      by_cases h : k1 = k
      · simp [odSet, odGet, h]
      · simp [odSet, odGet, h, ih]

theorem odSet_of_none {α : Type} (l : OD α) (k : String) (v : α)
    (h : odGet l k = none) : odSet l k v = l ++ [(k, v)] := by
  induction l with
  | nil => simp [odSet]
  | cons p rest ih =>
      obtain ⟨k1, v1⟩ := p
      by_cases hk : k1 = k
      · simp [odGet, hk] at h
      · simp only [odGet, hk, if_neg, ite_false] at h
        simp [odSet, hk, ih h]

theorem odRemove_of_none {α : Type} (l : OD α) (k : String)
    (h : odGet l k = none) : odRemove l k = l := by
  induction l with
  | nil => simp [odRemove]
  | cons p rest ih =>
      obtain ⟨k1, v1⟩ := p
      by_cases hk : k1 = k
      · simp [odGet, hk] at h
      · simp only [odGet, hk, ite_false] at h
        simp [odRemove, hk, ih h]

theorem odRemove_append_of_none {α : Type} (l : OD α) (k : String) (v : α)
    (h : odGet l k = none) : odRemove (l ++ [(k, v)]) k = l := by
  induction l with
  | nil => simp [odRemove]
  | cons p rest ih =>
      obtain ⟨k1, v1⟩ := p
      by_cases hk : k1 = k
      · simp [odGet, hk] at h
      · simp only [odGet, hk, ite_false] at h
        simp [odRemove, hk, ih h]

theorem odRemove_odSet {α : Type} (l : OD α) (k : String) (v : α) :
    odRemove (odSet l k v) k = odRemove l k := by
  induction l with
  | nil => simp [odSet, odRemove]
  | cons p rest ih =>
      obtain ⟨k1, v1⟩ := p
      by_cases hk : k1 = k
      · simp [odSet, odRemove, hk]
      · simp [odSet, odRemove, hk, ih]

theorem odMoveToEnd_odSet {α : Type} (l : OD α) (k : String) (v : α) :
    odMoveToEnd (odSet l k v) k = odRemove l k ++ [(k, v)] := by
  unfold odMoveToEnd
  rw [odGet_odSet_self, odRemove_odSet]

theorem odRemove_keys {α : Type} (l : OD α) (k : String) :
    (odRemove l k).map Prod.fst = (l.map Prod.fst).erase k := by
  induction l with
  | nil => simp [odRemove]
  | cons p rest ih =>
      obtain ⟨k1, v1⟩ := p
      by_cases hk : k1 = k
      · subst hk
        simp [odRemove, List.erase_cons_head]
      · simp [odRemove, hk, ih, List.erase_cons_tail,
              (by simpa using hk : ¬(k1 == k) = true)]

theorem odRemove_length_le {α : Type} (l : OD α) (k : String) :
    (odRemove l k).length ≤ l.length := by
  induction l with
  | nil => simp [odRemove]
  | cons p rest ih =>
      obtain ⟨k1, v1⟩ := p
      by_cases hk : k1 = k
      · simp only [odRemove, hk, ite_true, List.length_cons]
        omega
      · simp only [odRemove, hk, ite_false, List.length_cons]
        omega

theorem odGet_eq_none_iff {α : Type} (l : OD α) (k : String) :
    odGet l k = none ↔ k ∉ l.map Prod.fst := by
  induction l with
  | nil => simp [odGet]
  | cons p rest ih =>
      obtain ⟨k1, v1⟩ := p
      by_cases hk : k1 = k
      · simp [odGet, hk]
      · simp [odGet, hk, ih, Ne.symm hk]

theorem odSet_keys_of_some {α : Type} (l : OD α) (k : String) (v w : α)
    (h : odGet l k = some v) :
    (odSet l k w).map Prod.fst = l.map Prod.fst := by
  induction l with
  | nil => simp [odGet] at h
  | cons p rest ih =>
      obtain ⟨k1, v1⟩ := p
      by_cases hk : k1 = k
      · simp [odSet, hk]
      · simp only [odGet, hk, ite_false] at h
        simp [odSet, hk, ih h]

theorem odGet_tail_none {α : Type} (l : OD α) (k : String)
    (h : odGet l k = none) : odGet l.tail k = none := by
  cases l with
  | nil => simp [odGet]
  | cons p rest =>
      obtain ⟨k1, v1⟩ := p
      by_cases hk : k1 = k
      · simp [odGet, hk] at h
      · simpa only [odGet, hk, ite_false] using h


/-! Reduction of the lock wrappers when the lock is free and the body
does not block. -/

theorem withInstanceLock_run {α : Type} (s : BrowserInstance)
    (body : BrowserInstance → BrowserInstance × PyResult α)
    (hLock : s.lockHeld = false)
    (hb : (body { s with lockHeld := true }).2 ≠ PyResult.blocked) :
    withInstanceLock s body =
      ({ (body { s with lockHeld := true }).1 with lockHeld := false },
       (body { s with lockHeld := true }).2) := by
  unfold withInstanceLock
  rw [if_neg (by simp [hLock])]
  rcases h : body { s with lockHeld := true } with ⟨s1, r⟩
  rw [h] at hb
  cases r with
  | ok a => rfl
  | exn e => rfl
  | blocked => exact absurd rfl hb

theorem withManagerLock_run {α : Type} (m : SubAgentBrowserManager)
    (body : SubAgentBrowserManager → SubAgentBrowserManager × PyResult α)
    (hLock : m.lockHeld = false)
    (hb : (body { m with lockHeld := true }).2 ≠ PyResult.blocked) :
    withManagerLock m body =
      ({ (body { m with lockHeld := true }).1 with lockHeld := false },
       (body { m with lockHeld := true }).2) := by
  unfold withManagerLock
  rw [if_neg (by simp [hLock])]
  rcases h : body { m with lockHeld := true } with ⟨m1, r⟩
  rw [h] at hb
  cases r with
  | ok a => rfl
  | exn e => rfl
  | blocked => exact absurd rfl hb

/-! Facts about the create_tab body. -/

theorem createTabBody_ne_blocked (tab_id ur : Option String) (now fp : Nat)
    (gf : Bool) (s : BrowserInstance) :
    (createTabBody tab_id ur now fp gf s).2 ≠ PyResult.blocked := by
  unfold createTabBody
  by_cases hc : s.closed
  · simp [hc]
  · simp only [hc, ite_false, Bool.false_eq_true]
    split <;> simp

theorem createTabBody_maxTabs (tab_id ur : Option String) (now fp : Nat)
    (gf : Bool) (s : BrowserInstance) :
    (createTabBody tab_id ur now fp gf s).1.maxTabs = s.maxTabs := by
  unfold createTabBody BrowserInstance.evict_oldest_tab
    BrowserInstance.update_activity
  by_cases hc : s.closed
  · simp [hc]
  · simp only [hc, if_false, ite_false, Bool.false_eq_true]
    repeat' split
    all_goals simp_all

theorem createTabBody_closed (tab_id ur : Option String) (now fp : Nat)
    (gf : Bool) (s : BrowserInstance) :
    (createTabBody tab_id ur now fp gf s).1.closed = s.closed := by
  unfold createTabBody BrowserInstance.evict_oldest_tab
    BrowserInstance.update_activity
  by_cases hc : s.closed
  · simp [hc]
  · simp only [hc, if_false, ite_false, Bool.false_eq_true]
    repeat' split
    all_goals simp_all

theorem createTabBody_lockHeld (tab_id ur : Option String) (now fp : Nat)
    (gf : Bool) (s : BrowserInstance) :
    (createTabBody tab_id ur now fp gf s).1.lockHeld = s.lockHeld := by
  unfold createTabBody BrowserInstance.evict_oldest_tab
    BrowserInstance.update_activity
  by_cases hc : s.closed
  · simp [hc]
  · simp only [hc, if_false, ite_false, Bool.false_eq_true]
    repeat' split
    all_goals simp_all

theorem od_insert_length {α : Type} (l : OD α) (k : String) (v : α) :
    (odRemove l k ++ [(k, v)]).length ≤ l.length + 1 := by
  have := odRemove_length_le l k
  simp [List.length_append]
  omega

theorem createTabBody_len (tab_id ur : Option String) (now fp : Nat) (gf : Bool)
    (s : BrowserInstance) (hLen : s.tabs.length ≤ s.maxTabs)
    (hMax : 1 ≤ s.maxTabs) :
    (createTabBody tab_id ur now fp gf s).1.tabs.length ≤ s.maxTabs := by
  unfold createTabBody BrowserInstance.evict_oldest_tab
    BrowserInstance.update_activity
  by_cases hc : s.closed
  · simpa [hc] using hLen
  · simp only [hc, ite_false, Bool.false_eq_true, odMoveToEnd_odSet]
    repeat' split
    all_goals simp_all [List.length_append]
    all_goals
      first
        | omega
        | exact le_trans (Nat.add_le_add_right (odRemove_length_le _ _) 1)
            (by omega)

theorem createTabBody_cp_le (tab_id ur : Option String) (now fp : Nat)
    (gf : Bool) (s : BrowserInstance) :
    (createTabBody tab_id ur now fp gf s).1.closedPages.length ≤
      s.closedPages.length + 1 := by
  unfold createTabBody BrowserInstance.evict_oldest_tab
    BrowserInstance.update_activity
  by_cases hc : s.closed
  · simp [hc]
  · simp only [hc, ite_false, Bool.false_eq_true]
    repeat' split
    all_goals simp_all [List.length_append]

theorem createTabBody_cp_evict (tab_id ur : Option String) (now fp : Nat)
    (gf : Bool) (s : BrowserInstance) (hc : s.closed = false)
    (hev : s.maxTabs ≤ s.tabs.length) (hMax : 1 ≤ s.maxTabs) :
    (createTabBody tab_id ur now fp gf s).1.closedPages.length =
      s.closedPages.length + 1 := by
  unfold createTabBody BrowserInstance.evict_oldest_tab
    BrowserInstance.update_activity
  simp only [hc, ite_false, Bool.false_eq_true]
  repeat' split
  all_goals simp_all [List.length_append]

/-! Lifting body facts through the lock wrapper. -/

theorem createTabState_eq (s : BrowserInstance) (c : CreateCall)
    (hLock : s.lockHeld = false) :
    createTabState s c =
      { (createTabBody c.tab_id c.ur c.now c.freshPage c.gotoFails
          { s with lockHeld := true }).1 with lockHeld := false } := by
  unfold createTabState BrowserInstance.create_tab
  rw [withInstanceLock_run _ _ hLock (createTabBody_ne_blocked _ _ _ _ _ _)]

theorem create_tab_step (s : BrowserInstance) (c : CreateCall)
    (hLock : s.lockHeld = false) :
    (createTabState s c).lockHeld = false ∧
    (createTabState s c).maxTabs = s.maxTabs ∧
    (createTabState s c).closed = s.closed := by
  rw [createTabState_eq s c hLock]
  refine ⟨rfl, ?_, ?_⟩
  · simpa using createTabBody_maxTabs c.tab_id c.ur c.now c.freshPage
      c.gotoFails { s with lockHeld := true }
  · simpa using createTabBody_closed c.tab_id c.ur c.now c.freshPage
      c.gotoFails { s with lockHeld := true }

theorem create_tab_len (s : BrowserInstance) (c : CreateCall)
    (hLock : s.lockHeld = false) (hLen : s.tabs.length ≤ s.maxTabs)
    (hMax : 1 ≤ s.maxTabs) :
    (createTabState s c).tabs.length ≤ s.maxTabs := by
  rw [createTabState_eq s c hLock]
  simpa using createTabBody_len c.tab_id c.ur c.now c.freshPage c.gotoFails
    { s with lockHeld := true } (by simpa using hLen) (by simpa using hMax)

theorem create_tab_cp_le (s : BrowserInstance) (c : CreateCall)
    (hLock : s.lockHeld = false) :
    (createTabState s c).closedPages.length ≤ s.closedPages.length + 1 := by
  rw [createTabState_eq s c hLock]
  simpa using createTabBody_cp_le c.tab_id c.ur c.now c.freshPage c.gotoFails
    { s with lockHeld := true }

theorem create_tab_cp_evict (s : BrowserInstance) (c : CreateCall)
    (hLock : s.lockHeld = false) (hc : s.closed = false)
    (hev : s.maxTabs ≤ s.tabs.length) (hMax : 1 ≤ s.maxTabs) :
    (createTabState s c).closedPages.length = s.closedPages.length + 1 := by
  rw [createTabState_eq s c hLock]
  simpa using createTabBody_cp_evict c.tab_id c.ur c.now c.freshPage
    c.gotoFails { s with lockHeld := true } (by simpa using hc)
    (by simpa using hev) (by simpa using hMax)

/-! The tab-cap invariant over call sequences. -/

theorem runCreateTabs_inv (calls : List CreateCall) (s : BrowserInstance)
    (hLock : s.lockHeld = false) (hLen : s.tabs.length ≤ s.maxTabs)
    (hMax : 1 ≤ s.maxTabs) :
    (runCreateTabs s calls).lockHeld = false ∧
    (runCreateTabs s calls).maxTabs = s.maxTabs ∧
    (runCreateTabs s calls).tabs.length ≤ s.maxTabs := by
  induction calls generalizing s with
  | nil => exact ⟨hLock, rfl, hLen⟩
  | cons c rest ih =>
      obtain ⟨h1, h2, _⟩ := create_tab_step s c hLock
      have hlen1 : (createTabState s c).tabs.length ≤ (createTabState s c).maxTabs := by
        rw [h2]
        exact create_tab_len s c hLock hLen hMax
      have hmax1 : 1 ≤ (createTabState s c).maxTabs := by rw [h2]; exact hMax
      obtain ⟨g1, g2, g3⟩ := ih (createTabState s c) h1 hlen1 hmax1
      refine ⟨g1, ?_, ?_⟩
      · rw [runCreateTabs, g2, h2]
      · rw [runCreateTabs]
        calc (runCreateTabs (createTabState s c) rest).tabs.length
            ≤ (createTabState s c).maxTabs := g3
          _ = s.maxTabs := h2

/-! Recency-order facts for eviction and promotion. -/

theorem createTabBody_keys_evict (tid : String) (ur : Option String)
    (now fp : Nat) (s : BrowserInstance) (hc : s.closed = false)
    (hev : s.maxTabs ≤ s.tabs.length) (hFresh : odGet s.tabs tid = none) :
    (createTabBody (some tid) ur now fp false s).1.tabs.map Prod.fst =
      (s.tabs.map Prod.fst).tail ++ [tid] := by
  unfold createTabBody BrowserInstance.evict_oldest_tab
    BrowserInstance.update_activity
  rw [if_neg (by simp [hc]), if_pos hev]
  cases htabs : s.tabs with
  | nil =>
      simp [odMoveToEnd_odSet, odRemove, htabs]
  | cons p rest =>
      obtain ⟨k1, v1⟩ := p
      have hrest : odGet rest tid = none := by
        have := odGet_tail_none s.tabs tid hFresh
        rw [htabs] at this
        simpa using this
      simp [odMoveToEnd_odSet, odRemove_of_none rest tid hrest]

theorem getTabBody_keys (tid : String) (now : Nat) (s : BrowserInstance)
    (info : TabInfo) (hc : s.closed = false)
    (hHit : odGet s.tabs tid = some info) :
    (getTabBody tid now s).1.tabs.map Prod.fst =
      (s.tabs.map Prod.fst).erase tid ++ [tid] := by
  unfold getTabBody BrowserInstance.update_activity
  rw [if_neg (by simp [hc])]
  simp [hHit, odMoveToEnd_odSet, odRemove_keys]

theorem getTabBody_ne_blocked (tid : String) (now : Nat) (s : BrowserInstance) :
    (getTabBody tid now s).2 ≠ PyResult.blocked := by
  unfold getTabBody
  by_cases hc : s.closed
  · simp [hc]
  · simp only [hc, ite_false, Bool.false_eq_true]
    split <;> simp

theorem closeTabBody_ne_blocked (tid : String) (now : Nat)
    (s : BrowserInstance) : (closeTabBody tid now s).2 ≠ PyResult.blocked := by
  unfold closeTabBody
  by_cases hc : s.closed
  · simp [hc]
  · simp only [hc, ite_false, Bool.false_eq_true]
    split <;> simp

theorem closeAllTabsBody_ne_blocked (now : Nat) (s : BrowserInstance) :
    (closeAllTabsBody now s).2 ≠ PyResult.blocked := by
  unfold closeAllTabsBody
  simp

/-! Structure-eta helpers: re-locking and unlocking is the identity. -/

theorem instance_relock (s : BrowserInstance) (hLock : s.lockHeld = false) :
    ({ { s with lockHeld := true } with lockHeld := false } : BrowserInstance)
      = s := by
  cases s
  simp_all

theorem manager_relock (m : SubAgentBrowserManager) (hLock : m.lockHeld = false) :
    ({ { m with lockHeld := true } with lockHeld := false } :
        SubAgentBrowserManager) = m := by
  cases m
  simp_all

/-! Reductions of the manager method bodies. -/

theorem createBrowserBody_notRunning (sid : Option String) (fid : String)
    (now : Nat) (lf cf : Bool) (m : SubAgentBrowserManager)
    (hRun : m.running = false) :
    createBrowserBody sid fid now lf cf m =
      (m, PyResult.exn "SubAgentBrowserManager not started") := by
  unfold createBrowserBody
  simp [hRun]

theorem createBrowserBody_reuse (sid fid : String) (now : Nat) (lf cf : Bool)
    (m : SubAgentBrowserManager) (inst : BrowserInstance)
    (hRun : m.running = true) (hGet : odGet m.browsers sid = some inst) :
    createBrowserBody (some sid) fid now lf cf m =
      ({ m with browsers := odSet m.browsers sid (inst.update_activity now) },
       PyResult.ok (inst.update_activity now)) := by
  unfold createBrowserBody
  simp [hRun, hGet]

theorem createBrowserBody_fresh (sid fid : String) (now : Nat)
    (m : SubAgentBrowserManager) (hRun : m.running = true)
    (hAbsent : odGet m.browsers sid = none) :
    createBrowserBody (some sid) fid now false false m =
      ({ m with browserRefs := odSet m.browserRefs sid m.nextId
                nextId := m.nextId + 1 + 2
                browsers := odSet m.browsers sid
                  (mkBrowserInstance (m.nextId + 1 + 1) sid (m.nextId + 1) now) },
       PyResult.ok (mkBrowserInstance (m.nextId + 1 + 1) sid (m.nextId + 1) now)) := by
  unfold createBrowserBody
  simp [hRun, hAbsent]

theorem createBrowserBody_ctxFail (sid fid : String) (now : Nat)
    (m : SubAgentBrowserManager) (hRun : m.running = true)
    (hAbsent : odGet m.browsers sid = none) :
    createBrowserBody (some sid) fid now false true m =
      ({ m with browserRefs := odSet m.browserRefs sid m.nextId
                nextId := m.nextId + 1 },
       PyResult.exn "context creation failed") := by
  unfold createBrowserBody
  simp [hRun, hAbsent]

theorem getBrowserBody_absent (sid : String) (now : Nat)
    (m : SubAgentBrowserManager) (hAbsent : odGet m.browsers sid = none) :
    getBrowserBody sid now m = (m, PyResult.ok none) := by
  unfold getBrowserBody
  simp [hAbsent]

theorem getBrowserBody_closedInst (sid : String) (now : Nat)
    (m : SubAgentBrowserManager) (inst : BrowserInstance)
    (hGet : odGet m.browsers sid = some inst) (hC : inst.closed = true) :
    getBrowserBody sid now m = (m, PyResult.ok none) := by
  unfold getBrowserBody
  simp [hGet, hC]

theorem closeBrowserBody_absent (sid : String) (now : Nat)
    (m : SubAgentBrowserManager) (hAbsent : odGet m.browsers sid = none) :
    closeBrowserBody sid now m = (m, PyResult.ok false) := by
  unfold closeBrowserBody
  simp [hAbsent]

/-! Manager methods lifted through the lock. -/

theorem create_browser_fresh (m : SubAgentBrowserManager) (sid fid : String)
    (now : Nat) (hRun : m.running = true) (hLock : m.lockHeld = false)
    (hAbsent : odGet m.browsers sid = none) :
    m.create_browser (some sid) fid now false false =
      ({ m with browserRefs := odSet m.browserRefs sid m.nextId
                nextId := m.nextId + 1 + 2
                browsers := odSet m.browsers sid
                  (mkBrowserInstance (m.nextId + 1 + 1) sid (m.nextId + 1) now) },
       PyResult.ok (mkBrowserInstance (m.nextId + 1 + 1) sid (m.nextId + 1) now)) := by
  have hb := createBrowserBody_fresh sid fid now { m with lockHeld := true }
    (by simpa using hRun) (by simpa using hAbsent)
  rw [SubAgentBrowserManager.create_browser,
      withManagerLock_run _ _ hLock (by rw [hb]; simp), hb]
  cases m
  simp_all

theorem create_browser_reuse (m : SubAgentBrowserManager) (sid fid : String)
    (now : Nat) (lf cf : Bool) (inst : BrowserInstance)
    (hRun : m.running = true) (hLock : m.lockHeld = false)
    (hGet : odGet m.browsers sid = some inst) :
    m.create_browser (some sid) fid now lf cf =
      ({ m with browsers := odSet m.browsers sid (inst.update_activity now) },
       PyResult.ok (inst.update_activity now)) := by
  have hb := createBrowserBody_reuse sid fid now lf cf { m with lockHeld := true }
    inst (by simpa using hRun) (by simpa using hGet)
  rw [SubAgentBrowserManager.create_browser,
      withManagerLock_run _ _ hLock (by rw [hb]; simp), hb]
  cases m
  simp_all

theorem create_browser_ctxFail (m : SubAgentBrowserManager) (sid fid : String)
    (now : Nat) (hRun : m.running = true) (hLock : m.lockHeld = false)
    (hAbsent : odGet m.browsers sid = none) :
    m.create_browser (some sid) fid now false true =
      ({ m with browserRefs := odSet m.browserRefs sid m.nextId
                nextId := m.nextId + 1 },
       PyResult.exn "context creation failed") := by
  have hb := createBrowserBody_ctxFail sid fid now { m with lockHeld := true }
    (by simpa using hRun) (by simpa using hAbsent)
  rw [SubAgentBrowserManager.create_browser,
      withManagerLock_run _ _ hLock (by rw [hb]; simp), hb]
  cases m
  simp_all

theorem create_browser_notRunning (m : SubAgentBrowserManager)
    (sid : Option String) (fid : String) (now : Nat) (lf cf : Bool)
    (hRun : m.running = false) (hLock : m.lockHeld = false) :
    m.create_browser sid fid now lf cf =
      (m, PyResult.exn "SubAgentBrowserManager not started") := by
  have hb := createBrowserBody_notRunning sid fid now lf cf
    { m with lockHeld := true } (by simpa using hRun)
  rw [SubAgentBrowserManager.create_browser,
      withManagerLock_run _ _ hLock (by rw [hb]; simp), hb]
  simp [manager_relock m hLock]

theorem get_browser_closedInst (m : SubAgentBrowserManager) (sid : String)
    (now : Nat) (inst : BrowserInstance) (hLock : m.lockHeld = false)
    (hGet : odGet m.browsers sid = some inst) (hC : inst.closed = true) :
    m.get_browser sid now = (m, PyResult.ok none) := by
  have hb := getBrowserBody_closedInst sid now { m with lockHeld := true }
    inst (by simpa using hGet) hC
  rw [SubAgentBrowserManager.get_browser,
      withManagerLock_run _ _ hLock (by rw [hb]; simp), hb]
  simp [manager_relock m hLock]

theorem get_browser_absent (m : SubAgentBrowserManager) (sid : String)
    (now : Nat) (hLock : m.lockHeld = false)
    (hAbsent : odGet m.browsers sid = none) :
    m.get_browser sid now = (m, PyResult.ok none) := by
  have hb := getBrowserBody_absent sid now { m with lockHeld := true }
    (by simpa using hAbsent)
  rw [SubAgentBrowserManager.get_browser,
      withManagerLock_run _ _ hLock (by rw [hb]; simp), hb]
  simp [manager_relock m hLock]

theorem close_browser_absent (m : SubAgentBrowserManager) (sid : String)
    (now : Nat) (hLock : m.lockHeld = false)
    (hAbsent : odGet m.browsers sid = none) :
    m.close_browser sid now = (m, PyResult.ok false) := by
  have hb := closeBrowserBody_absent sid now { m with lockHeld := true }
    (by simpa using hAbsent)
  rw [SubAgentBrowserManager.close_browser,
      withManagerLock_run _ _ hLock (by rw [hb]; simp), hb]
  simp [manager_relock m hLock]

/-! Navigation failure inside create_tab. -/

theorem createTabBody_navFail (tid u : String) (now fp : Nat)
    (s : BrowserInstance) (hClosed : s.closed = false) (hU : u ≠ "")
    (hFresh : odGet s.tabs tid = none) :
    (createTabBody (some tid) (some u) now fp true s).2 =
      PyResult.exn "navigation failed" ∧
    odGet (createTabBody (some tid) (some u) now fp true s).1.tabs tid =
      none := by
  unfold createTabBody BrowserInstance.evict_oldest_tab
  rw [if_neg (by simp [hClosed])]
  have htr : (strOptTruthy (some u) && true) = true := by
    simp [strOptTruthy, hU]
  by_cases hev : s.maxTabs ≤ s.tabs.length
  · cases htabs : s.tabs with
    | nil => simp [hev, htr, htabs, hFresh, odGet]
    | cons p rest =>
        obtain ⟨k1, v1⟩ := p
        have hrest : odGet rest tid = none := by
          have := odGet_tail_none s.tabs tid hFresh
          rw [htabs] at this
          simpa using this
        rw [htabs] at hev
        simp only [List.length_cons] at hev
        simp [hev, htr, htabs, hrest, odGet]
  · simp [hev, htr, hFresh, odGet]

/-! Claim theorems. -/

/-- Claim C1: for every sequence of create_tab calls starting from a
fresh instance the tab count stays at or below MAX_TABS (15) after each
call, and a single create_tab call on an instance within its limit
evicts at most one tab (recorded as exactly one closed page when the
call starts at the limit on an open instance), never more. -/
theorem C1_tab_cap (calls : List CreateCall) (n : Nat) (s : BrowserInstance)
    (c : CreateCall) (hLock : s.lockHeld = false)
    (hLen : s.tabs.length ≤ s.maxTabs) (hMax : 1 ≤ s.maxTabs) :
    (runCreateTabs inst0 (calls.take n)).tab_count ≤ 15 ∧
    (createTabState s c).tab_count ≤ s.maxTabs ∧
    (createTabState s c).closedPages.length ≤ s.closedPages.length + 1 ∧
    (s.closed = false → s.tabs.length = s.maxTabs →
      (createTabState s c).closedPages.length = s.closedPages.length + 1) := by
  refine ⟨?_, ?_, ?_, ?_⟩
  · have h := runCreateTabs_inv (calls.take n) inst0 rfl
      (by simp [inst0, mkBrowserInstance]) (by simp [inst0, mkBrowserInstance])
    have h15 : inst0.maxTabs = 15 := rfl
    rw [BrowserInstance.tab_count, ← h15]
    exact h.2.2
  · exact create_tab_len s c hLock hLen hMax
  · exact create_tab_cp_le s c hLock
  · intro h1 h2
    exact create_tab_cp_evict s c hLock h1 (le_of_eq h2.symm) hMax

/-- Concrete instantiation of the hypotheses of C1_tab_cap. -/
theorem C1_tab_cap_witness :
    (runCreateTabs inst0 (callsC1.take 16)).tab_count ≤ 15 ∧
    (createTabState instOneTab callX).tab_count ≤ instOneTab.maxTabs ∧
    (createTabState instOneTab callX).closedPages.length ≤
      instOneTab.closedPages.length + 1 ∧
    (instOneTab.closed = false →
      instOneTab.tabs.length = instOneTab.maxTabs →
      (createTabState instOneTab callX).closedPages.length =
        instOneTab.closedPages.length + 1) :=
  C1_tab_cap callsC1 16 instOneTab callX (by decide) (by decide) (by decide)

/-- Claim C2: on an open instance at capacity, a create_tab with a
fresh explicit id removes exactly the first entry in recency order (the
least recently used) and appends the new id at the most-recently-used
end; a get_tab hit moves the tab to the most-recently-used end; and in
the concrete capacity-2 scenario create A, create B, get A, create C
the registry holds exactly A and C and the page of B was closed. -/
theorem C2_lru_eviction (s s2 : BrowserInstance) (tid tid2 : String)
    (c : CreateCall) (info2 : TabInfo) (now2 : Nat)
    (hLock : s.lockHeld = false) (hClosed : s.closed = false)
    (hCap : s.maxTabs ≤ s.tabs.length) (hFresh : odGet s.tabs tid = none)
    (hTid : c.tab_id = some tid) (hNav : c.gotoFails = false)
    (hLock2 : s2.lockHeld = false) (hClosed2 : s2.closed = false)
    (hHit : odGet s2.tabs tid2 = some info2) :
    (createTabState s c).tabs.map Prod.fst =
      (s.tabs.map Prod.fst).tail ++ [tid] ∧
    (s2.get_tab tid2 now2).1.tabs.map Prod.fst =
      (s2.tabs.map Prod.fst).erase tid2 ++ [tid2] ∧
    c2state.tabs.map Prod.fst = ["A", "C"] ∧
    odContains c2state.tabs "B" = false ∧
    (102 : Nat) ∈ c2state.closedPages := by
  refine ⟨?_, ?_, by decide, by decide, by decide⟩
  · rw [createTabState_eq s c hLock, hTid, hNav]
    have hk := createTabBody_keys_evict tid c.ur c.now c.freshPage
      { s with lockHeld := true } (by simpa using hClosed)
      (by simpa using hCap) (by simpa using hFresh)
    simpa using hk
  · rw [BrowserInstance.get_tab,
        withInstanceLock_run _ _ hLock2 (getTabBody_ne_blocked _ _ _)]
    have hk := getTabBody_keys tid2 now2 { s2 with lockHeld := true } info2
      (by simpa using hClosed2) (by simpa using hHit)
    simpa using hk

/-- Concrete instantiation of the hypotheses of C2_lru_eviction. -/
theorem C2_lru_eviction_witness :
    (createTabState instAB callC).tabs.map Prod.fst =
      (instAB.tabs.map Prod.fst).tail ++ ["C"] ∧
    (instAB.get_tab "A" 3).1.tabs.map Prod.fst =
      (instAB.tabs.map Prod.fst).erase "A" ++ ["A"] ∧
    c2state.tabs.map Prod.fst = ["A", "C"] ∧
    odContains c2state.tabs "B" = false ∧
    (102 : Nat) ∈ c2state.closedPages :=
  C2_lru_eviction instAB instAB "C" "A" callC tabA 3 (by decide) (by decide)
    (by decide) (by decide) (by decide) (by decide) (by decide) (by decide)
    (by decide)

/-- Claim C3 (code defect): on an open instance, close() sets the closed
flags and then awaits close_all_tabs(), which tries to acquire the same
non-reentrant instance lock; the call never completes, the tab map is
not emptied and the context is not closed.  Only a close() on an
already-closed instance returns (as a no-op), so the first call is not
equivalent to the claimed behaviour. -/
theorem C3_close_first_call_deadlocks :
    (instOneTab.close 9).2 = PyResult.blocked ∧
    (instOneTab.close 9).1.closed = true ∧
    (instOneTab.close 9).1.isActive = false ∧
    (instOneTab.close 9).1.tabs = [("t1", tabT1)] ∧
    (instOneTab.close 9).1.contextClosed = false ∧
    (instOneTab.close 9).1.lockHeld = true ∧
    (instClosedOneTab.close 9).2 = PyResult.ok () := by decide

/-- Claim C4: with the manager running, two sequential create_browser
calls with the same session id X return the same instance (the second
returns the registered object with its activity touched) and the
session map holds exactly one entry for X. -/
theorem C4_create_browser_idempotent (m : SubAgentBrowserManager)
    (now1 now2 : Nat) (hRun : m.running = true) (hLock : m.lockHeld = false)
    (hAbsent : odGet m.browsers "X" = none) :
    ∃ m1 i1 m2 i2,
      m.create_browser (some "X") "" now1 false false =
        (m1, PyResult.ok i1) ∧
      m1.create_browser (some "X") "" now2 false false =
        (m2, PyResult.ok i2) ∧
      i2.objId = i1.objId ∧ i2.lastActivity = now2 ∧
      (m2.browsers.map Prod.fst).count "X" = 1 := by
  have h1 := create_browser_fresh m "X" "" now1 hRun hLock hAbsent
  have hget := odGet_odSet_self m.browsers "X"
    (mkBrowserInstance (m.nextId + 1 + 1) "X" (m.nextId + 1) now1)
  have h2 := create_browser_reuse
    ({ m with browserRefs := odSet m.browserRefs "X" m.nextId
              nextId := m.nextId + 1 + 2
              browsers := odSet m.browsers "X"
                (mkBrowserInstance (m.nextId + 1 + 1) "X"
                  (m.nextId + 1) now1) })
    "X" "" now2 false false
    (mkBrowserInstance (m.nextId + 1 + 1) "X" (m.nextId + 1) now1)
    (by simpa using hRun) (by simpa using hLock) (by simpa using hget)
  have hkeys1 : (odSet m.browsers "X"
      (mkBrowserInstance (m.nextId + 1 + 1) "X" (m.nextId + 1) now1)).map
        Prod.fst = m.browsers.map Prod.fst ++ ["X"] := by
    rw [odSet_of_none m.browsers "X" _ hAbsent, List.map_append]
    rfl
  have hkeys2 := odSet_keys_of_some
    (odSet m.browsers "X"
      (mkBrowserInstance (m.nextId + 1 + 1) "X" (m.nextId + 1) now1)) "X"
    (mkBrowserInstance (m.nextId + 1 + 1) "X" (m.nextId + 1) now1)
    ((mkBrowserInstance (m.nextId + 1 + 1) "X"
      (m.nextId + 1) now1).update_activity now2)
    (odGet_odSet_self m.browsers "X" _)
  have hnotmem : ("X" : String) ∉ m.browsers.map Prod.fst :=
    (odGet_eq_none_iff m.browsers "X").mp hAbsent
  have hcount : ((odSet
      (odSet m.browsers "X"
        (mkBrowserInstance (m.nextId + 1 + 1) "X" (m.nextId + 1) now1)) "X"
      ((mkBrowserInstance (m.nextId + 1 + 1) "X"
        (m.nextId + 1) now1).update_activity now2)).map Prod.fst).count "X"
      = 1 := by
    rw [hkeys2, hkeys1, List.count_append, List.count_eq_zero.mpr hnotmem]
    rfl
  exact ⟨_, _, _, _, h1, h2, rfl, rfl, hcount⟩

/-- Concrete instantiation of the hypotheses of
C4_create_browser_idempotent. -/
theorem C4_create_browser_idempotent_witness :
    ∃ m1 i1 m2 i2,
      mRunning.create_browser (some "X") "" 5 false false =
        (m1, PyResult.ok i1) ∧
      m1.create_browser (some "X") "" 6 false false =
        (m2, PyResult.ok i2) ∧
      i2.objId = i1.objId ∧ i2.lastActivity = 6 ∧
      (m2.browsers.map Prod.fst).count "X" = 1 :=
  C4_create_browser_idempotent mRunning 5 6 (by decide) (by decide) (by decide)

/-- Counterexample to claim C5: on a running manager with no session X,
a create_browser whose context creation fails raises, yet the
browser-handle map still holds an entry for X (the handle was stored
before the context was created), so the claimed atomicity over both
maps is false. -/
theorem C5_counterexample :
    (mRunning.create_browser (some "X") "" 0 false true).2 =
      PyResult.exn "context creation failed" ∧
    odContains (mRunning.create_browser (some "X") "" 0 false true).1.browserRefs
      "X" = true := by decide

/-- Claim C5 as amended: a navigation failure during create_tab
propagates and leaves no tab registered under the attempted id, and a
context-creation failure during create_browser propagates and leaves no
entry in the instance map, but the browser-handle map does retain the
handle of the browser launched for that session. -/
theorem C5_creation_atomicity_amended (s : BrowserInstance) (tid u : String)
    (now fp : Nat) (m : SubAgentBrowserManager) (sid fid : String)
    (now2 : Nat) (hLock : s.lockHeld = false) (hClosed : s.closed = false)
    (hFresh : odGet s.tabs tid = none) (hU : u ≠ "")
    (hRun : m.running = true) (hLockM : m.lockHeld = false)
    (hAbsent : odGet m.browsers sid = none) :
    (s.create_tab (some tid) (some u) now fp true).2 =
      PyResult.exn "navigation failed" ∧
    odGet (s.create_tab (some tid) (some u) now fp true).1.tabs tid = none ∧
    (m.create_browser (some sid) fid now2 false true).2 =
      PyResult.exn "context creation failed" ∧
    odGet (m.create_browser (some sid) fid now2 false true).1.browsers sid =
      none ∧
    odContains (m.create_browser (some sid) fid now2 false true).1.browserRefs
      sid = true := by
  have hnav := createTabBody_navFail tid u now fp { s with lockHeld := true }
    (by simpa using hClosed) hU (by simpa using hFresh)
  have hctx := create_browser_ctxFail m sid fid now2 hRun hLockM hAbsent
  refine ⟨?_, ?_, ?_, ?_, ?_⟩
  · rw [BrowserInstance.create_tab,
        withInstanceLock_run _ _ hLock (createTabBody_ne_blocked _ _ _ _ _ _)]
    exact hnav.1
  · rw [BrowserInstance.create_tab,
        withInstanceLock_run _ _ hLock (createTabBody_ne_blocked _ _ _ _ _ _)]
    exact hnav.2
  · rw [hctx]
  · rw [hctx]
    exact hAbsent
  · rw [hctx]
    simp [odContains, odGet_odSet_self]

/-- Concrete instantiation of the hypotheses of
C5_creation_atomicity_amended. -/
theorem C5_creation_atomicity_amended_witness :
    (instOneTab.create_tab (some "t2") (some "https://example.org") 9 201
        true).2 = PyResult.exn "navigation failed" ∧
    odGet (instOneTab.create_tab (some "t2") (some "https://example.org") 9
        201 true).1.tabs "t2" = none ∧
    (mRunning.create_browser (some "X") "" 0 false true).2 =
      PyResult.exn "context creation failed" ∧
    odGet (mRunning.create_browser (some "X") "" 0 false true).1.browsers "X" =
      none ∧
    odContains (mRunning.create_browser (some "X") "" 0 false
        true).1.browserRefs "X" = true :=
  C5_creation_atomicity_amended instOneTab "t2" "https://example.org" 9 201
    mRunning "X" "" 0 (by decide) (by decide) (by decide) (by decide)
    (by decide) (by decide) (by decide)

/-- Counterexample to claim C6: on a closed instance, close_tab returns
the plain ok-false result — the same value an open instance returns for
a missing tab — rather than a distinct instance-closed condition, and
close_all_tabs silently proceeds and clears the tab map. -/
theorem C6_counterexample :
    (instClosedOneTab.close_tab "t1" 9).2 = PyResult.ok false ∧
    (instOneTab.close_tab "missing" 9).2 = PyResult.ok false ∧
    (instClosedOneTab.close_all_tabs 9).2 = PyResult.ok () ∧
    (instClosedOneTab.close_all_tabs 9).1.tabs = [] := by decide

/-- Claim C6 as amended: once the closed flag is set, create_tab raises
the distinct instance-closed error, but close_tab returns False and
get_tab returns None (the ordinary absent results), and close_all_tabs
does not check the flag at all and clears the map. -/
theorem C6_use_after_close_amended (s : BrowserInstance) (tid : String)
    (u : Option String) (now fp : Nat) (gf : Bool)
    (hLock : s.lockHeld = false) (hClosed : s.closed = true) :
    (s.create_tab (some tid) u now fp gf).2 =
      PyResult.exn "Browser instance has been closed" ∧
    (s.close_tab tid now).2 = PyResult.ok false ∧
    (s.get_tab tid now).2 = PyResult.ok none ∧
    (s.close_all_tabs now).2 = PyResult.ok () ∧
    (s.close_all_tabs now).1.tabs = [] := by
  refine ⟨?_, ?_, ?_, ?_, ?_⟩
  · rw [BrowserInstance.create_tab,
        withInstanceLock_run _ _ hLock (createTabBody_ne_blocked _ _ _ _ _ _)]
    unfold createTabBody
    simp [hClosed]
  · rw [BrowserInstance.close_tab,
        withInstanceLock_run _ _ hLock (closeTabBody_ne_blocked _ _ _)]
    unfold closeTabBody
    simp [hClosed]
  · rw [BrowserInstance.get_tab,
        withInstanceLock_run _ _ hLock (getTabBody_ne_blocked _ _ _)]
    unfold getTabBody
    simp [hClosed]
  · rw [BrowserInstance.close_all_tabs,
        withInstanceLock_run _ _ hLock (closeAllTabsBody_ne_blocked _ _)]
    unfold closeAllTabsBody
    simp
  · rw [BrowserInstance.close_all_tabs,
        withInstanceLock_run _ _ hLock (closeAllTabsBody_ne_blocked _ _)]
    unfold closeAllTabsBody BrowserInstance.update_activity
    simp

/-- Concrete instantiation of the hypotheses of
C6_use_after_close_amended. -/
theorem C6_use_after_close_amended_witness :
    (instClosedOneTab.create_tab (some "t9") none 9 300 false).2 =
      PyResult.exn "Browser instance has been closed" ∧
    (instClosedOneTab.close_tab "t9" 9).2 = PyResult.ok false ∧
    (instClosedOneTab.get_tab "t9" 9).2 = PyResult.ok none ∧
    (instClosedOneTab.close_all_tabs 9).2 = PyResult.ok () ∧
    (instClosedOneTab.close_all_tabs 9).1.tabs = [] :=
  C6_use_after_close_amended instClosedOneTab "t9" none 9 300 false
    (by decide) (by decide)

/-- Claim C7 (code defect): with two sessions A and B both idle beyond
the threshold, one sweep cycle pops A from the session map and then
awaits BrowserInstance.close(), which deadlocks on the non-reentrant
instance lock; the cycle never completes, B is still registered, the
browser handle of A is never released and the manager lock stays
held. -/
theorem C7_sweep_deadlocks :
    (mExpired.cleanup_inactive 1000).2 = PyResult.blocked ∧
    odContains (mExpired.cleanup_inactive 1000).1.browsers "A" = false ∧
    odContains (mExpired.cleanup_inactive 1000).1.browsers "B" = true ∧
    odContains (mExpired.cleanup_inactive 1000).1.browserRefs "A" = true ∧
    (mExpired.cleanup_inactive 1000).1.lockHeld = true := by decide

/-- Claim C8: isolated_context holds the single gateway mutex for the
whole scope (the caller body runs on a state with the lock held and the
fresh context registered), and on every exit path of the body — normal
return or exception — the created context is closed, its registry entry
is removed (the registry is restored exactly when the body does not
touch it), and the lock is released. -/
theorem C8_isolated_context_scoped_cleanup {α : Type} (g : BrowserManager)
    (cid : String) (body : BrowserManager → Nat → BrowserManager × PyResult α)
    (hLock : g.lockHeld = false) (hStarted : g.browserStarted = true)
    (hFresh : odGet g.activeContexts cid = none)
    (hBody : ∀ g1 h, (body g1 h).2 ≠ PyResult.blocked)
    (hCtx : ∀ g1 h, (body g1 h).1.activeContexts = g1.activeContexts) :
    (g.isolated_context cid body).1.activeContexts = g.activeContexts ∧
    odContains (g.isolated_context cid body).1.activeContexts cid = false ∧
    (g.isolated_context cid body).1.lockHeld = false ∧
    g.nextId ∈ (g.isolated_context cid body).1.closedContexts ∧
    ∃ gIn, gIn.lockHeld = true ∧
      odGet gIn.activeContexts cid = some g.nextId ∧
      (g.isolated_context cid body).2 = (body gIn g.nextId).2 := by
  unfold BrowserManager.isolated_context
  rw [if_neg (by simp [hLock]), if_neg (by simp [hStarted])]
  dsimp only
  rcases hb : body
      { browserStarted := g.browserStarted
        activeContexts := odSet g.activeContexts cid g.nextId
        lockHeld := true
        nextId := g.nextId + 2
        closedContexts := g.closedContexts }
      g.nextId with ⟨g1, r⟩
  have hc1 : g1.activeContexts = odSet g.activeContexts cid g.nextId := by
    have h := hCtx
      { browserStarted := g.browserStarted
        activeContexts := odSet g.activeContexts cid g.nextId
        lockHeld := true
        nextId := g.nextId + 2
        closedContexts := g.closedContexts } g.nextId
    rw [hb] at h
    simpa using h
  have hrem : odRemove g1.activeContexts cid = g.activeContexts := by
    rw [hc1, odSet_of_none g.activeContexts cid g.nextId hFresh,
        odRemove_append_of_none g.activeContexts cid g.nextId hFresh]
  cases r with
  | blocked =>
      exfalso
      have h := hBody
        { browserStarted := g.browserStarted
          activeContexts := odSet g.activeContexts cid g.nextId
          lockHeld := true
          nextId := g.nextId + 2
          closedContexts := g.closedContexts } g.nextId
      rw [hb] at h
      exact h rfl
  | ok a =>
      refine ⟨hrem, ?_, rfl, by simp, ?_⟩
      · show odContains (odRemove g1.activeContexts cid) cid = false
        rw [hrem]
        simp [odContains, hFresh]
      · exact ⟨_, rfl, odGet_odSet_self g.activeContexts cid g.nextId,
          by rw [hb]⟩
  | exn e =>
      refine ⟨hrem, ?_, rfl, by simp, ?_⟩
      · show odContains (odRemove g1.activeContexts cid) cid = false
        rw [hrem]
        simp [odContains, hFresh]
      · exact ⟨_, rfl, odGet_odSet_self g.activeContexts cid g.nextId,
          by rw [hb]⟩

/-- Concrete instantiation of the hypotheses of
C8_isolated_context_scoped_cleanup. -/
theorem C8_isolated_context_scoped_cleanup_witness :
    (gw0.isolated_context "cid" bodyRet).1.activeContexts =
      gw0.activeContexts ∧
    odContains (gw0.isolated_context "cid" bodyRet).1.activeContexts "cid" =
      false ∧
    (gw0.isolated_context "cid" bodyRet).1.lockHeld = false ∧
    gw0.nextId ∈ (gw0.isolated_context "cid" bodyRet).1.closedContexts ∧
    ∃ gIn, gIn.lockHeld = true ∧
      odGet gIn.activeContexts "cid" = some gw0.nextId ∧
      (gw0.isolated_context "cid" bodyRet).2 = (bodyRet gIn gw0.nextId).2 :=
  C8_isolated_context_scoped_cleanup gw0 "cid" bodyRet (by decide) (by decide)
    (by decide) (fun g1 h => by simp [bodyRet]) (fun g1 h => rfl)

/-- Counterexample to claim C9: on a manager that was never started,
get_browser returns the plain absent value and close_browser returns
the plain False — neither raises the distinct not-started condition;
only create_browser does. -/
theorem C9_counterexample :
    (mNotStarted.get_browser "X" 0).2 = PyResult.ok none ∧
    (mNotStarted.close_browser "X" 0).2 = PyResult.ok false ∧
    (mNotStarted.create_browser (some "X") "" 0 false false).2 =
      PyResult.exn "SubAgentBrowserManager not started" := by decide

/-- Claim C9 as amended: before start(), create_browser fails fast with
the distinct not-started error, while get_browser and close_browser do
not check the running flag and return the ordinary absent and False
results on the not-yet-started (empty) manager. -/
theorem C9_not_initialized_amended (m : SubAgentBrowserManager)
    (sid fid : String) (now : Nat) (lf cf : Bool)
    (hRun : m.running = false) (hLock : m.lockHeld = false)
    (hEmpty : m.browsers = []) :
    (m.create_browser (some sid) fid now lf cf).2 =
      PyResult.exn "SubAgentBrowserManager not started" ∧
    (m.get_browser sid now).2 = PyResult.ok none ∧
    (m.close_browser sid now).2 = PyResult.ok false := by
  have hAbsent : odGet m.browsers sid = none := by
    rw [hEmpty]
    rfl
  refine ⟨?_, ?_, ?_⟩
  · rw [create_browser_notRunning m (some sid) fid now lf cf hRun hLock]
  · rw [get_browser_absent m sid now hLock hAbsent]
  · rw [close_browser_absent m sid now hLock hAbsent]

/-- Concrete instantiation of the hypotheses of
C9_not_initialized_amended. -/
theorem C9_not_initialized_amended_witness :
    (mNotStarted.create_browser (some "X") "" 0 true false).2 =
      PyResult.exn "SubAgentBrowserManager not started" ∧
    (mNotStarted.get_browser "X" 0).2 = PyResult.ok none ∧
    (mNotStarted.close_browser "X" 0).2 = PyResult.ok false :=
  C9_not_initialized_amended mNotStarted "X" "" 0 true false (by decide)
    (by decide) (by decide)

/-- Claim C10: when the session map holds a closed instance under X on a
running manager, get_browser returns the absent value because the
instance is closed, yet get_or_create_browser falls through to
create_browser, which returns the registered closed instance without
checking the flag (only touching its activity), leaving the key set of
the map unchanged. -/
theorem C10_get_or_create_returns_closed (m : SubAgentBrowserManager)
    (inst : BrowserInstance) (now : Nat)
    (hRun : m.running = true) (hLock : m.lockHeld = false)
    (hGet : odGet m.browsers "X" = some inst) (hClosed : inst.closed = true) :
    (m.get_browser "X" now).2 = PyResult.ok none ∧
    ∃ m2 i2,
      m.get_or_create_browser "X" now false false = (m2, PyResult.ok i2) ∧
      i2.objId = inst.objId ∧ i2.closed = true ∧
      m2.browsers.map Prod.fst = m.browsers.map Prod.fst := by
  have hget := get_browser_closedInst m "X" now inst hLock hGet hClosed
  have hcr := create_browser_reuse m "X" "" now false false inst hRun hLock
    hGet
  refine ⟨by rw [hget], ?_⟩
  have hmain : m.get_or_create_browser "X" now false false =
      ({ m with browsers :=
           odSet m.browsers "X" (inst.update_activity now) },
       PyResult.ok (inst.update_activity now)) := by
    unfold SubAgentBrowserManager.get_or_create_browser
    rw [hget]
    exact hcr
  refine ⟨_, _, hmain, rfl, hClosed, ?_⟩
  exact odSet_keys_of_some m.browsers "X" inst (inst.update_activity now) hGet

/-- Concrete instantiation of the hypotheses of
C10_get_or_create_returns_closed. -/
theorem C10_get_or_create_returns_closed_witness :
    (mWithClosedX.get_browser "X" 5).2 = PyResult.ok none ∧
    ∃ m2 i2,
      mWithClosedX.get_or_create_browser "X" 5 false false =
        (m2, PyResult.ok i2) ∧
      i2.objId = instClosedX.objId ∧ i2.closed = true ∧
      m2.browsers.map Prod.fst = mWithClosedX.browsers.map Prod.fst :=
  C10_get_or_create_returns_closed mWithClosedX instClosedX 5 (by decide)
    (by decide) (by decide) (by decide)

end BraveScraper
